import Mathlib

/-!
Shallow embedding of the state-diff reconciliation engine of
`sync-dbx-nxc.py` (a Dropbox/NextCloud synchronizer).

Snapshots are Python dicts mapping a case-normalized path key to a
per-path record; we model them as ordered association lists with
Python-dict write semantics (replace the existing binding in place,
else append).  Backend mutation calls are reified as an `Action` list;
`print` logging and local temp-file removal are not backend-visible and
are not modelled.  Python exceptions are modelled by an `Option String`
error component that aborts the remaining iteration, mirroring an
uncaught exception unwinding out of the loop.
-/

namespace SyncDbxNxc

/-- Per-backend portion of a state entry: the `existent`/`time` dict. -/
structure BackendState where
  existent : Bool
  time : Option String
deriving DecidableEq, Repr

/-- One value of the state dict (`get_empty_state_entry` shape):
`dbx` and `nxc` sub-dicts plus the display `name` and `path`. -/
structure Entry where
  dbx : BackendState
  nxc : BackendState
  name : String
  path : String
deriving DecidableEq, Repr

/-- A state dict: ordered association list from normalized key to entry. -/
abbrev State := List (String × Entry)

/-- The two clouds, Python's `'dbx'` / `'nxc'` subscript strings. -/
inductive Cloud where
  | dbx
  | nxc
deriving DecidableEq, Repr

/-- Subscripting an entry with a cloud type. -/
def Entry.backend : Entry → Cloud → BackendState
  | e, .dbx => e.dbx
  | e, .nxc => e.nxc

/-- Embeds `get_empty_state_entry`. -/
def get_empty_state_entry (name path : String) : Entry :=
  { dbx := { existent := false, time := none },
    nxc := { existent := false, time := none },
    name := name, path := path }

/-- Python dict assignment `d[k] = v`: replace the (unique) existing
binding in place, else append at the end. -/
def dictUpdate : State → String → Entry → State
  | [], k, v => [(k, v)]
  | kv :: rest, k, v =>
    if kv.1 == k then (k, v) :: rest else kv :: dictUpdate rest k v

/-- Python dict read `d[k]`; `normalize_states` and the fill passes
guarantee the key is present at every use, so the default entry of the
`getD` is never reached. -/
def lookupEntry (st : State) (k : String) : Entry :=
  (st.lookup k).getD (get_empty_state_entry "" "")

/-- Python `s.rstrip('/')`: drop every trailing separator.  Written on
the character list so that it reduces inside the kernel. -/
def rstripSlash (s : String) : String :=
  ⟨(s.data.reverse.dropWhile (· == '/')).reverse⟩

/-- Python `s[s.rfind('/')+1:]`: the segment after the last separator,
or the whole string when there is none. -/
def afterLastSlash (s : String) : String :=
  ⟨(s.data.reverse.takeWhile (· != '/')).reverse⟩

/-- Python `s.startswith(p)`. -/
def strStartsWith (s p : String) : Bool :=
  p.data.isPrefixOf s.data

/-- Python slicing `s[n:]` (by character, as Python indexes by code
point). -/
def strDrop (s : String) (n : Nat) : String :=
  ⟨s.data.drop n⟩

/-- Python `s.lower()` on the ASCII paths handled here. -/
def strLower (s : String) : String :=
  ⟨s.data.map Char.toLower⟩

/-- Embeds `is_folder` (Python `_path.endswith('/')`). -/
def is_folder (path : String) : Bool :=
  path.data.getLast? == some '/'

/-- Embeds `has_changed` on the two entries stored at a key. -/
def has_changed (key : String) (prevE currE : Entry) (c : Cloud) : Bool :=
  if (prevE.backend c).existent != (currE.backend c).existent then true
  else if is_folder key then false
  else (prevE.backend c).time != (currE.backend c).time

/-- Embeds `has_been_created`. -/
def has_been_created (prevE currE : Entry) (c : Cloud) : Bool :=
  !(prevE.backend c).existent && (currE.backend c).existent

/-- Embeds `has_been_changed`. -/
def has_been_changed (key : String) (prevE currE : Entry) (c : Cloud) : Bool :=
  if is_folder key then false
  else (prevE.backend c).time != (currE.backend c).time

/-- Embeds `has_been_deleted`. -/
def has_been_deleted (prevE currE : Entry) (c : Cloud) : Bool :=
  (prevE.backend c).existent && !(currE.backend c).existent

/-- Backend calls actually issued by the script (the `print` logging is
not backend-visible and is omitted). -/
inductive Action where
  | createFolderDbx (path : String)
  | createFolderNxc (path : String)
  | moveNxc (path destination : String)
  | downloadFileDbx (path : String)
  | downloadFileNxc (path : String)
  | uploadFileDbx (path : String)
  | uploadFileNxc (path : String)
  | deleteOnDbx (path : String)
  | deleteOnNxc (path : String)
deriving DecidableEq, Repr

/-- Embeds `create_folder_dbx`: the mutating call is gated on `SIMULATE`. -/
def create_folder_dbx (simulate : Bool) (path : String) : List Action :=
  if simulate then [] else [.createFolderDbx (rstripSlash path)]

/-- Embeds `create_folder_nxc`. -/
def create_folder_nxc (simulate : Bool) (path : String) : List Action :=
  if simulate then [] else [.createFolderNxc path]

/-- Embeds `move_nxc`. -/
def move_nxc (simulate : Bool) (path destination : String) : List Action :=
  if simulate then [] else [.moveNxc path destination]

/-- Embeds `download_file_dbx`: the download is issued even under
`SIMULATE` (the source notes this in its own log line). -/
def download_file_dbx (path : String) : List Action :=
  [.downloadFileDbx path]

/-- Embeds `download_file_nxc`: issued even under `SIMULATE`. -/
def download_file_nxc (path : String) : List Action :=
  [.downloadFileNxc path]

/-- Embeds `upload_file_dbx`. -/
def upload_file_dbx (simulate : Bool) (path : String) : List Action :=
  if simulate then [] else [.uploadFileDbx path]

/-- Embeds `upload_file_nxc`. -/
def upload_file_nxc (simulate : Bool) (path : String) : List Action :=
  if simulate then [] else [.uploadFileNxc path]

/-- Embeds `delete_on_dbx`. -/
def delete_on_dbx (simulate : Bool) (path : String) : List Action :=
  if simulate then [] else [.deleteOnDbx (rstripSlash path)]

/-- Embeds `delete_on_nxc`. -/
def delete_on_nxc (simulate : Bool) (path : String) : List Action :=
  if simulate then [] else [.deleteOnNxc path]

/-- Embeds `copy_to_dbx`: create the folder, or download from NextCloud
and upload to Dropbox. -/
def copy_to_dbx (simulate : Bool) (path : String) : List Action :=
  if is_folder path then create_folder_dbx simulate path
  else download_file_nxc path ++ upload_file_dbx simulate path

/-- Embeds `copy_to_nxc`. -/
def copy_to_nxc (simulate : Bool) (path : String) : List Action :=
  if is_folder path then create_folder_nxc simulate path
  else download_file_dbx path ++ upload_file_nxc simulate path

/-- CPython name resolution for a read of name `n` against a local
scope: an unbound name raises `NameError`. -/
def pyLookup (scope : List (String × String)) (n : String) : Except String String :=
  match scope.lookup n with
  | some v => Except.ok v
  | none => Except.error ("NameError: name " ++ n ++ " is not defined")

/-- Embeds `get_hash` with the digest primitive abstracted as `sha1`.
The body reads the name `full_path`, but the function's scope binds only
its parameter `_local_filepath`, so the read raises `NameError`. -/
def get_hash (sha1 : String → String) (scope : List (String × String)) :
    Except String String :=
  (pyLookup scope "full_path").map sha1

/-- Embeds `get_hash_dbx`.  The body binds `tmp_filepath` to the
downloaded file and then evaluates `get_hash(_local_filepath)`: the
argument `_local_filepath` is unbound in this scope, so CPython raises
`NameError` while evaluating the argument, after the download. -/
def get_hash_dbx (sha1 : String → String) (path : String) :
    List Action × Except String String :=
  let tmp_filepath := afterLastSlash path
  let scope := [("tmp_filepath", tmp_filepath)]
  (download_file_dbx path,
    match pyLookup scope "_local_filepath" with
    | Except.error e => Except.error e
    | Except.ok arg => get_hash sha1 [("_local_filepath", arg)])

/-- Embeds `get_hash_nxc`, with the same unbound-name structure as
`get_hash_dbx`. -/
def get_hash_nxc (sha1 : String → String) (path : String) :
    List Action × Except String String :=
  let tmp_filepath := afterLastSlash path
  let scope := [("tmp_filepath", tmp_filepath)]
  (download_file_nxc path,
    match pyLookup scope "_local_filepath" with
    | Except.error e => Except.error e
    | Except.ok arg => get_hash sha1 [("_local_filepath", arg)])

/-- The hash-compare conflict block, written out verbatim twice in
`sync_state` (for created/created and for changed/changed); `nxcTime` is
`value['nxc']['time']` of the current entry. -/
def conflict_resolve (sha1 : String → String) (simulate : Bool)
    (path : String) (nxcTime : Option String) : List Action × Option String :=
  match get_hash_dbx sha1 path with
  | (a1, Except.error e) => (a1, some e)
  | (a1, Except.ok hashDbx) =>
    match get_hash_nxc sha1 path with
    | (a2, Except.error e) => (a1 ++ a2, some e)
    | (a2, Except.ok hashNxc) =>
      if hashDbx != hashNxc then
        let nxc_path := path ++ " (NextCloud - " ++ nxcTime.getD "None" ++ ")"
        (a1 ++ a2 ++ move_nxc simulate path nxc_path
          ++ copy_to_nxc simulate path ++ copy_to_dbx simulate nxc_path, none)
      else (a1 ++ a2, none)

/-- The per-key body of the `sync_state` loop: ignore-check, the eight
classifier calls, and the decision chain. -/
def sync_key (sha1 : String → String) (simulate : Bool)
    (ignore_folders : List String) (key : String) (prevE currE : Entry) :
    List Action × Option String :=
  if key == "" || key == "/" then ([], none)
  else if ignore_folders.any (fun f => strStartsWith key f) then ([], none)
  else
    let path := currE.path
    let cDbx := has_changed key prevE currE .dbx
    let cNxc := has_changed key prevE currE .nxc
    if cDbx && !cNxc then
      if has_been_created prevE currE .dbx then (copy_to_nxc simulate path, none)
      else if has_been_deleted prevE currE .dbx then (delete_on_nxc simulate path, none)
      else if has_been_changed key prevE currE .dbx then (copy_to_nxc simulate path, none)
      else ([], none)
    else if !cDbx && cNxc then
      if has_been_created prevE currE .nxc then (copy_to_dbx simulate path, none)
      else if has_been_deleted prevE currE .nxc then (delete_on_dbx simulate path, none)
      else if has_been_changed key prevE currE .nxc then (copy_to_dbx simulate path, none)
      else ([], none)
    else if cDbx && cNxc then
      if has_been_created prevE currE .dbx && has_been_created prevE currE .nxc then
        conflict_resolve sha1 simulate path currE.nxc.time
      else if has_been_changed key prevE currE .dbx && has_been_deleted prevE currE .nxc then
        (copy_to_nxc simulate path, none)
      else if has_been_deleted prevE currE .dbx && has_been_changed key prevE currE .nxc then
        (copy_to_dbx simulate path, none)
      else if has_been_changed key prevE currE .dbx && has_been_changed key prevE currE .nxc then
        conflict_resolve sha1 simulate path currE.nxc.time
      else ([], none)
    else ([], none)

/-- One direction of `normalize_states`: for each key of `source`
missing from `target`, append a synthetic non-existent entry copying
`name`/`path` from the source value. -/
def addMissing : State → State → State
  | target, [] => target
  | target, kv :: rest =>
    addMissing
      (if (target.lookup kv.1).isSome then target
       else target ++ [(kv.1, get_empty_state_entry kv.2.name kv.2.path)])
      rest

/-- Iteration of the `sync_state` loop over the current snapshot's
items; an error (uncaught Python exception) aborts the remaining keys. -/
def run_keys (sha1 : String → String) (simulate : Bool)
    (ignore_folders : List String) (prev : State) :
    List (String × Entry) → List Action × Option String
  | [] => ([], none)
  | kv :: rest =>
    match sync_key sha1 simulate ignore_folders kv.1 (lookupEntry prev kv.1) kv.2 with
    | (a, some e) => (a, some e)
    | (a, none) =>
      match run_keys sha1 simulate ignore_folders prev rest with
      | (a2, e2) => (a ++ a2, e2)

/-- Embeds `sync_state`: `normalize_states` first extends the current
snapshot with the previous one's missing keys, then the previous with
the (already extended) current one's; then the loop runs over the
current snapshot's items. -/
def sync_state (sha1 : String → String) (simulate : Bool)
    (ignore_folders : List String) (state_prev state_curr : State) :
    List Action × Option String :=
  let state_curr2 := addMissing state_curr state_prev
  let state_prev2 := addMissing state_prev state_curr2
  run_keys sha1 simulate ignore_folders state_prev2 state_curr2

/-- A Dropbox listing entry: `FolderMetadata` or `FileMetadata` with the
fields the script reads (`name`, `path_lower`, `path_display`, and for
files the formatted `client_modified` timestamp). -/
inductive DbxEntry where
  | folder (name path_lower path_display : String)
  | file (name path_lower path_display client_modified : String)
deriving DecidableEq, Repr

/-- Python dict write `_state[key]['dbx'] = b` (the key is present at
every use). -/
def dictSetDbx (st : State) (k : String) (b : BackendState) : State :=
  dictUpdate st k { lookupEntry st k with dbx := b }

/-- Python dict write `_state[key]['nxc'] = b`. -/
def dictSetNxc (st : State) (k : String) (b : BackendState) : State :=
  dictUpdate st k { lookupEntry st k with nxc := b }

/-- Processing of one Dropbox entry inside the `fill_state_dbx` loop:
slice the sync root off `path_lower` to get the key (folders get a
trailing separator), insert an empty record if the key is new, and set
the `dbx` sub-dict (`TIME_NOW_STR` for folders, `client_modified` for
files). -/
def fill_entry_dbx (root timeNow : String) (st : State) : DbxEntry → State
  | .folder name path_lower path_display =>
    let key := strDrop path_lower root.length ++ "/"
    let st :=
      if (st.lookup key).isSome then st
      else dictUpdate st key
        (get_empty_state_entry name (strDrop (path_display ++ "/") root.length))
    dictSetDbx st key { existent := true, time := some timeNow }
  | .file name path_lower path_display client_modified =>
    let key := strDrop path_lower root.length
    let st :=
      if (st.lookup key).isSome then st
      else dictUpdate st key
        (get_empty_state_entry name (strDrop path_display root.length))
    dictSetDbx st key { existent := true, time := some client_modified }

/-- Embeds `fill_state_dbx`.  `pages` models the paginated listing: the
head is the result of `files_list_folder`, each further element the
result of one `files_list_folder_continue` call, and `has_more` is true
exactly on non-final results.  The source's loop is
`while has_more: result = continue(...); for entry in result.entries: ...`,
so the entries of the FIRST result are never visited: only
`pages.drop 1` is processed. -/
def fill_state_dbx (root timeNow : String) (pages : List (List DbxEntry))
    (st : State) : State :=
  (pages.drop 1).foldl (fun s page => page.foldl (fill_entry_dbx root timeNow) s) st

/-- A NextCloud WebDAV listing entry with the fields the script reads. -/
structure NxcEntry where
  href : String
  last_modified : String
deriving DecidableEq, Repr

/-- Processing of one NextCloud entry inside the `fill_state_nxc` loop:
percent-decode the href, slice off the DAV root prefix, derive the
display name and the lower-cased key, skip the root (empty key), insert
an empty record if the key is new, and set the `nxc` sub-dict.
`unquote` and `fmtDate` abstract `urllib.parse.unquote` and the
`strptime`/`strftime` reformatting of `last_modified`. -/
def fill_entry_nxc (unquote fmtDate : String → String) (rootText : String)
    (st : State) (e : NxcEntry) : State :=
  let path_display := strDrop (unquote e.href) rootText.length
  let name := afterLastSlash (rstripSlash path_display)
  let key := strLower path_display
  if key == "" then st
  else
    let st :=
      if (st.lookup key).isSome then st
      else dictUpdate st key (get_empty_state_entry name path_display)
    dictSetNxc st key { existent := true, time := some (fmtDate e.last_modified) }

/-- Embeds `fill_state_nxc`: when the listing result `is_ok`, fold its
entries into the state; otherwise the state is left untouched. -/
def fill_state_nxc (unquote fmtDate : String → String) (rootText : String)
    (is_ok : Bool) (entries : List NxcEntry) (st : State) : State :=
  if is_ok then entries.foldl (fill_entry_nxc unquote fmtDate rootText) st
  else st

/-- Embeds `get_state`: an empty dict filled by the Dropbox pass and
then the NextCloud pass. -/
def get_state (root timeNow : String) (pages : List (List DbxEntry))
    (unquote fmtDate : String → String) (rootText : String)
    (is_ok : Bool) (entries : List NxcEntry) : State :=
  fill_state_nxc unquote fmtDate rootText is_ok entries
    (fill_state_dbx root timeNow pages [])

/-- The per-key body of the `apply_state` loop. -/
def apply_key (simulate : Bool) (ignore_folders : List String)
    (key : String) (value : Entry) : List Action :=
  let existent_in_dbx := value.dbx.existent
  let existent_in_nxc := value.nxc.existent
  let ignore :=
    if key == "" || key == "/" then true
    else if existent_in_dbx == existent_in_nxc then true
    else ignore_folders.any (fun f => strStartsWith key f)
  if ignore then []
  else if !existent_in_dbx then copy_to_dbx simulate value.path
  else if !existent_in_nxc then copy_to_nxc simulate value.path
  else []

/-- Embeds `apply_state` (seed mode): the loop over the state's items. -/
def apply_state (simulate : Bool) (ignore_folders : List String) :
    State → List Action
  | [] => []
  | kv :: rest =>
    apply_key simulate ignore_folders kv.1 kv.2
      ++ apply_state simulate ignore_folders rest

/-- Classification of the reified backend calls: downloads are the only
read-only ones (listing is modelled as the snapshot inputs themselves). -/
def isMutating : Action → Bool
  | .downloadFileDbx _ => false
  | .downloadFileNxc _ => false
  | _ => true

/-- Concrete record: a file present on both backends. -/
def ePrevBoth : Entry :=
  { dbx := { existent := true, time := some "20200101000000" },
    nxc := { existent := true, time := some "20200101000000" },
    name := "a.txt", path := "/A.txt" }

/-- Concrete record: the previous state of a file about to be modified
on both backends. -/
def eModPrev : Entry :=
  { dbx := { existent := true, time := some "20200101000000" },
    nxc := { existent := true, time := some "20200101000000" },
    name := "b.txt", path := "/B.txt" }

/-- Concrete record: the current state of a file modified on both
backends (both timestamps moved). -/
def eModCurr : Entry :=
  { dbx := { existent := true, time := some "20210101000000" },
    nxc := { existent := true, time := some "20210202000000" },
    name := "b.txt", path := "/B.txt" }

/-- Concrete record: a folder now present on both backends. -/
def eFolderBoth : Entry :=
  { dbx := { existent := true, time := some "20250101000000" },
    nxc := { existent := true, time := some "20250101000001" },
    name := "docs", path := "/docs/" }

/-- Concrete record: a folder present on Dropbox only. -/
def eFolderDbxOnly : Entry :=
  { dbx := { existent := true, time := some "20250101000000" },
    nxc := { existent := false, time := none },
    name := "docs", path := "/docs/" }

/-- Concrete record: an absent entry for a file path. -/
def ePrevAbsent : Entry := get_empty_state_entry "a.txt" "/A.txt"

/-- Concrete record: a file freshly created on Dropbox. -/
def eCurrFileDbx : Entry :=
  { dbx := { existent := true, time := some "20200101000000" },
    nxc := { existent := false, time := none },
    name := "a.txt", path := "/A.txt" }

end SyncDbxNxc

namespace SyncDbxNxc

/-! Helper lemmas about the dict primitives. -/

theorem lookup_isSome_of_mem {st : State} {k : String} {v : Entry}
    (h : (k, v) ∈ st) : (st.lookup k).isSome = true := by
  induction st with
  | nil => cases h
  | cons kv rest ih =>
    rcases List.mem_cons.mp h with h1 | h2
    · cases h1
      simp [List.lookup]
    · by_cases hk : k == kv.1
      · simp [List.lookup, hk]
      · simp only [List.lookup, hk]
        exact ih h2

theorem lookup_of_mem_nodup {st : State} {k : String} {v : Entry}
    (hnd : (st.map Prod.fst).Nodup) (h : (k, v) ∈ st) :
    st.lookup k = some v := by
  induction st with
  | nil => cases h
  | cons kv rest ih =>
    rcases List.mem_cons.mp h with h1 | h2
    · cases h1
      simp [List.lookup]
    · have hne : k ≠ kv.1 := by
        intro he
        have : kv.1 ∈ rest.map Prod.fst := by
          rw [← he]
          exact List.mem_map_of_mem Prod.fst h2
        exact (List.nodup_cons.mp hnd).1 this
      have hb : (k == kv.1) = false := by simp [hne]
      simp only [List.lookup, hb]
      exact ih (List.nodup_cons.mp hnd).2 h2

theorem lookup_dictUpdate_self (st : State) (k : String) (v : Entry) :
    (dictUpdate st k v).lookup k = some v := by
  induction st with
  | nil => simp [dictUpdate, List.lookup]
  | cons kv rest ih =>
    by_cases h : kv.1 == k
    · simp [dictUpdate, h, List.lookup]
    · have hne : ¬ kv.1 = k := by simpa using h
      have h2 : (k == kv.1) = false := by
        rw [beq_eq_false_iff_ne]
        exact fun he => hne he.symm
      simp only [dictUpdate, h, if_false, Bool.false_eq_true, List.lookup, h2]
      exact ih

theorem lookup_dictUpdate_ne (st : State) (k k' : String) (v : Entry)
    (h : k' ≠ k) : (dictUpdate st k v).lookup k' = st.lookup k' := by
  have hb : (k' == k) = false := by simp [h]
  induction st with
  | nil => simp [dictUpdate, List.lookup, hb]
  | cons kv rest ih =>
    by_cases hk : kv.1 == k
    · have he : kv.1 = k := by simpa using hk
      simp [dictUpdate, hk, List.lookup, he, hb]
    · simp only [dictUpdate, hk, Bool.false_eq_true, if_false, List.lookup]
      by_cases hk' : k' == kv.1
      · simp [hk']
      · simp only [hk']
        exact ih

theorem addMissing_eq_self (target : State) (source : State)
    (h : ∀ kv ∈ source, (target.lookup kv.1).isSome = true) :
    addMissing target source = target := by
  induction source with
  | nil => rfl
  | cons kv rest ih =>
    rw [addMissing, if_pos (h kv (List.mem_cons_self kv rest))]
    exact ih (fun kv' hm => h kv' (List.mem_cons_of_mem _ hm))

/-! Both digest helpers fail on their unbound names before any digest is
produced, so the conflict block always aborts right after the Dropbox
download. -/

theorem get_hash_dbx_eq (sha1 : String → String) (path : String) :
    get_hash_dbx sha1 path =
      ([Action.downloadFileDbx path],
        Except.error "NameError: name _local_filepath is not defined") := rfl

theorem conflict_resolve_eq (sha1 : String → String) (simulate : Bool)
    (path : String) (nxcTime : Option String) :
    conflict_resolve sha1 simulate path nxcTime =
      ([Action.downloadFileDbx path],
        some "NameError: name _local_filepath is not defined") := rfl

/-! An entry whose backend sub-dict did not move between the snapshots is
classified as unchanged and produces no work. -/

theorem has_changed_eq_false (k : String) (eP eC : Entry) (c : Cloud)
    (h : eP.backend c = eC.backend c) : has_changed k eP eC c = false := by
  simp [has_changed, h]

theorem sync_key_no_change (sha1 : String → String) (simulate : Bool)
    (ig : List String) (k : String) (eP eC : Entry)
    (h1 : eP.dbx = eC.dbx) (h2 : eP.nxc = eC.nxc) :
    sync_key sha1 simulate ig k eP eC = ([], none) := by
  have hd : has_changed k eP eC .dbx = false := has_changed_eq_false k eP eC .dbx h1
  have hn : has_changed k eP eC .nxc = false := has_changed_eq_false k eP eC .nxc h2
  simp [sync_key, hd, hn]

theorem run_keys_no_actions (sha1 : String → String) (simulate : Bool)
    (ig : List String) (prev : State) (l : List (String × Entry))
    (h : ∀ kv ∈ l,
      sync_key sha1 simulate ig kv.1 (lookupEntry prev kv.1) kv.2 = ([], none)) :
    run_keys sha1 simulate ig prev l = ([], none) := by
  induction l with
  | nil => rfl
  | cons kv rest ih =>
    have hh := h kv (List.mem_cons_self kv rest)
    have ht := ih (fun kv' hm => h kv' (List.mem_cons_of_mem _ hm))
    simp [run_keys, hh, ht]

end SyncDbxNxc

namespace SyncDbxNxc

/-! Claim theorems. -/

/-- C1 (code bug): the `fill_state_dbx` loop fetches a continuation
before visiting any entries, so the entries of the first listing result
are never recorded.  A single-page listing containing `/a.txt` yields a
snapshot with no record of the file, while the same entry delivered on
a continuation page is recorded; the spec requires every discovered
object to appear in the snapshot. -/
theorem fill_state_dbx_first_page_dropped :
    (fill_state_dbx "/" "20250101000000"
        [[DbxEntry.file "a.txt" "/a.txt" "/A.txt" "20200101000000"]]
        []).lookup "a.txt" = none ∧
    (fill_state_dbx "/" "20250101000000"
        [[], [DbxEntry.file "a.txt" "/a.txt" "/A.txt" "20200101000000"]]
        []).lookup "a.txt" =
      some { dbx := { existent := true, time := some "20200101000000" },
             nxc := { existent := false, time := none },
             name := "a.txt", path := "A.txt" } := by
  constructor
  · rfl
  · rfl

/-- C2 (code bug): a file present on both backends in the previous
snapshot and deleted on both between runs.  Its timestamps went from set
to null, so `has_been_changed` is true for dbx, and the
`has_been_changed_dbx and has_been_deleted_nxc` branch fires before the
deleted/deleted case can be reached: the code issues a copy of the
(deleted) Dropbox file to NextCloud, where the spec's decision table
requires no action. -/
theorem double_delete_issues_copy :
    sync_state (fun _ => "") false [] [("/a.txt", ePrevBoth)] [] =
      ([Action.downloadFileDbx "/A.txt", Action.uploadFileNxc "/A.txt"],
        none) := by
  rfl

/-- C3 (code bug): a file modified on both backends enters the
hash-compare conflict block, but `get_hash_dbx` evaluates the unbound
name `_local_filepath`, so the run aborts with `NameError` right after
the Dropbox download: no digest is ever computed, no rename and no
copies happen. -/
theorem conflict_block_raises_name_error :
    sync_state (fun _ => "") false [] [("/b.txt", eModPrev)] [("/b.txt", eModCurr)] =
      ([Action.downloadFileDbx "/B.txt"],
        some "NameError: name _local_filepath is not defined") := by
  rfl

/-- C9: the root key (empty or single separator) is skipped by both the
Reconciler's and the Seed Reconciler's per-key bodies: no action and no
error, whatever the entries, the flags and the ignore list. -/
theorem root_key_never_reconciled (sha1 : String → String) (simulate : Bool)
    (ig : List String) (eP eC v : Entry) :
    sync_key sha1 simulate ig "" eP eC = ([], none) ∧
    sync_key sha1 simulate ig "/" eP eC = ([], none) ∧
    apply_key simulate ig "" v = [] ∧
    apply_key simulate ig "/" v = [] :=
  ⟨rfl, rfl, rfl, rfl⟩

/-- C4 (counterexample): for a file that was created on Dropbox, the
`changed` verdict holds but BOTH `created` and `modified` hold (the
recorded time moved from null to a timestamp), so it is false that
exactly one of `created`/`modified`/`deleted` is true. -/
theorem verdict_not_exactly_one :
    ¬ (has_changed "/a.txt" ePrevAbsent eCurrFileDbx .dbx = true →
        ((has_been_created ePrevAbsent eCurrFileDbx .dbx = true ∧
          has_been_changed "/a.txt" ePrevAbsent eCurrFileDbx .dbx = false ∧
          has_been_deleted ePrevAbsent eCurrFileDbx .dbx = false) ∨
         (has_been_created ePrevAbsent eCurrFileDbx .dbx = false ∧
          has_been_changed "/a.txt" ePrevAbsent eCurrFileDbx .dbx = true ∧
          has_been_deleted ePrevAbsent eCurrFileDbx .dbx = false) ∨
         (has_been_created ePrevAbsent eCurrFileDbx .dbx = false ∧
          has_been_changed "/a.txt" ePrevAbsent eCurrFileDbx .dbx = false ∧
          has_been_deleted ePrevAbsent eCurrFileDbx .dbx = true))) := by
  decide

/-- C8 (counterexample): a folder created on both backends with no
previous existence does not result in `createFolder` calls: the
created/created case enters the hash-compare conflict block, which
downloads the folder path for digesting and aborts with `NameError` —
a hashing step on a folder entry. -/
theorem folder_both_created_enters_hashing :
    (sync_state (fun _ => "") false [] [] [("/docs/", eFolderBoth)]).1 =
      [Action.downloadFileDbx "/docs/"] ∧
    Action.createFolderDbx "/docs" ∉
      (sync_state (fun _ => "") false [] [] [("/docs/", eFolderBoth)]).1 ∧
    Action.createFolderNxc "/docs/" ∉
      (sync_state (fun _ => "") false [] [] [("/docs/", eFolderBoth)]).1 := by
  refine ⟨rfl, ?_, ?_⟩
  · decide
  · decide

/-- C4 (amended): whenever `changed` is true for a backend, at least one
of `created`/`modified`/`deleted` is true and `created`/`deleted` are
never simultaneously true; for folder keys `modified` is never true and
exactly one of `created`/`deleted` is true.  (For file keys the verdicts
can overlap: a created or deleted file also counts as modified whenever
its recorded times differ.) -/
theorem verdict_coverage (k : String) (eP eC : Entry) (c : Cloud)
    (h : has_changed k eP eC c = true) :
    (has_been_created eP eC c || has_been_changed k eP eC c ||
      has_been_deleted eP eC c) = true ∧
    ¬ (has_been_created eP eC c = true ∧ has_been_deleted eP eC c = true) ∧
    (is_folder k = true →
      has_been_changed k eP eC c = false ∧
      has_been_created eP eC c ≠ has_been_deleted eP eC c) := by
  unfold has_changed at h
  unfold has_been_created has_been_changed has_been_deleted
  rcases hp : (eP.backend c).existent <;> rcases hq : (eC.backend c).existent <;>
    rw [hp, hq] at h <;> by_cases hf : is_folder k = true <;>
    simp_all

/-- C4 witness: the amended statement at the file freshly created on
Dropbox. -/
theorem verdict_coverage_witness :
    (has_been_created ePrevAbsent eCurrFileDbx .dbx ||
      has_been_changed "/a.txt" ePrevAbsent eCurrFileDbx .dbx ||
      has_been_deleted ePrevAbsent eCurrFileDbx .dbx) = true ∧
    ¬ (has_been_created ePrevAbsent eCurrFileDbx .dbx = true ∧
        has_been_deleted ePrevAbsent eCurrFileDbx .dbx = true) ∧
    (is_folder "/a.txt" = true →
      has_been_changed "/a.txt" ePrevAbsent eCurrFileDbx .dbx = false ∧
      has_been_created ePrevAbsent eCurrFileDbx .dbx ≠
        has_been_deleted ePrevAbsent eCurrFileDbx .dbx) :=
  verdict_coverage "/a.txt" ePrevAbsent eCurrFileDbx .dbx (by decide)

/-- C6: in seed mode, for a key that is not the root and matches no
ignore prefix, an entry on exactly one backend is copied to the other,
and an entry on both or neither backend produces no action at all. -/
theorem apply_key_single_side (simulate : Bool) (ig : List String)
    (k : String) (v : Entry)
    (hroot : (k == "" || k == "/") = false)
    (hig : ig.any (fun f => strStartsWith k f) = false) :
    (v.dbx.existent = true → v.nxc.existent = false →
      apply_key simulate ig k v = copy_to_nxc simulate v.path) ∧
    (v.dbx.existent = false → v.nxc.existent = true →
      apply_key simulate ig k v = copy_to_dbx simulate v.path) ∧
    (v.dbx.existent = v.nxc.existent → apply_key simulate ig k v = []) := by
  refine ⟨?_, ?_, ?_⟩
  · intro h1 h2
    simp [apply_key, hroot, hig, h1, h2]
  · intro h1 h2
    simp [apply_key, hroot, hig, h1, h2]
  · intro h
    simp [apply_key, hroot, h]

/-- C6 witness: the folder present on Dropbox only is copied to
NextCloud, at key `/docs/` with no ignore prefixes. -/
theorem apply_key_single_side_witness :
    (eFolderDbxOnly.dbx.existent = true → eFolderDbxOnly.nxc.existent = false →
      apply_key false [] "/docs/" eFolderDbxOnly =
        copy_to_nxc false eFolderDbxOnly.path) ∧
    (eFolderDbxOnly.dbx.existent = false → eFolderDbxOnly.nxc.existent = true →
      apply_key false [] "/docs/" eFolderDbxOnly =
        copy_to_dbx false eFolderDbxOnly.path) ∧
    (eFolderDbxOnly.dbx.existent = eFolderDbxOnly.nxc.existent →
      apply_key false [] "/docs/" eFolderDbxOnly = []) :=
  apply_key_single_side false [] "/docs/" eFolderDbxOnly (by decide) (by decide)

/-- C8 (amended): for a folder key (not root, not ignored) absent on
both backends in the previous snapshot, creation on exactly one backend
yields exactly one `createFolder` call on the other backend and no
hashing; creation on both backends, however, enters the hash-compare
conflict branch, which starts digesting the folder (a download of the
folder path) and aborts with `NameError`. -/
theorem folder_single_side_create (sha1 : String → String) (ig : List String)
    (k : String) (eP eC : Entry)
    (hfk : is_folder k = true) (hfp : is_folder eC.path = true)
    (hroot : (k == "" || k == "/") = false)
    (hig : ig.any (fun f => strStartsWith k f) = false)
    (hpd : eP.dbx.existent = false) (hpn : eP.nxc.existent = false) :
    (eC.dbx.existent = true → eC.nxc.existent = false →
      sync_key sha1 false ig k eP eC =
        ([Action.createFolderNxc eC.path], none)) ∧
    (eC.dbx.existent = false → eC.nxc.existent = true →
      sync_key sha1 false ig k eP eC =
        ([Action.createFolderDbx (rstripSlash eC.path)], none)) ∧
    (eC.dbx.existent = true → eC.nxc.existent = true →
      sync_key sha1 false ig k eP eC =
        ([Action.downloadFileDbx eC.path],
          some "NameError: name _local_filepath is not defined")) := by
  refine ⟨?_, ?_, ?_⟩
  · intro h1 h2
    simp [sync_key, hroot, hig, has_changed, has_been_created, Entry.backend,
      hfk, hfp, hpd, hpn, h1, h2, copy_to_nxc, create_folder_nxc]
  · intro h1 h2
    simp [sync_key, hroot, hig, has_changed, has_been_created, Entry.backend,
      hfk, hfp, hpd, hpn, h1, h2, copy_to_dbx, create_folder_dbx]
  · intro h1 h2
    simp [sync_key, hroot, hig, has_changed, has_been_created, Entry.backend,
      hfk, hpd, hpn, h1, h2, conflict_resolve_eq]

/-- C8 witness: the amended statement at folder key `/docs/` with the
folder present on Dropbox only in the current snapshot. -/
theorem folder_single_side_create_witness :
    (eFolderDbxOnly.dbx.existent = true → eFolderDbxOnly.nxc.existent = false →
      sync_key (fun _ => "") false [] "/docs/"
          (get_empty_state_entry "docs" "/docs/") eFolderDbxOnly =
        ([Action.createFolderNxc eFolderDbxOnly.path], none)) ∧
    (eFolderDbxOnly.dbx.existent = false → eFolderDbxOnly.nxc.existent = true →
      sync_key (fun _ => "") false [] "/docs/"
          (get_empty_state_entry "docs" "/docs/") eFolderDbxOnly =
        ([Action.createFolderDbx (rstripSlash eFolderDbxOnly.path)], none)) ∧
    (eFolderDbxOnly.dbx.existent = true → eFolderDbxOnly.nxc.existent = true →
      sync_key (fun _ => "") false [] "/docs/"
          (get_empty_state_entry "docs" "/docs/") eFolderDbxOnly =
        ([Action.downloadFileDbx eFolderDbxOnly.path],
          some "NameError: name _local_filepath is not defined")) :=
  folder_single_side_create (fun _ => "") [] "/docs/"
    (get_empty_state_entry "docs" "/docs/") eFolderDbxOnly
    (by decide) (by decide) (by decide) (by decide) (by decide) (by decide)

end SyncDbxNxc

namespace SyncDbxNxc

/-- C5: running the Reconciler when the previous and current snapshots
agree on existence and timestamps for every key and backend (the current
snapshot being a well-formed dict, its keys unique) issues no backend
call at all: no copy, delete, rename or digest download, and no error. -/
theorem sync_state_idempotent (sha1 : String → String) (simulate : Bool)
    (ig : List String) (prev curr : State)
    (hdup : (curr.map Prod.fst).Nodup)
    (hkeys : ∀ k, (prev.lookup k).isSome = (curr.lookup k).isSome)
    (hagree : ∀ k e e', prev.lookup k = some e → curr.lookup k = some e' →
      e.dbx = e'.dbx ∧ e.nxc = e'.nxc) :
    sync_state sha1 simulate ig prev curr = ([], none) := by
  have hc2 : addMissing curr prev = curr :=
    addMissing_eq_self curr prev (fun kv hm => by
      rw [← hkeys kv.1]
      exact lookup_isSome_of_mem hm)
  have hp2 : addMissing prev curr = prev :=
    addMissing_eq_self prev curr (fun kv hm => by
      rw [hkeys kv.1]
      exact lookup_isSome_of_mem hm)
  show run_keys sha1 simulate ig (addMissing prev (addMissing curr prev))
      (addMissing curr prev) = ([], none)
  rw [hc2, hp2]
  refine run_keys_no_actions sha1 simulate ig prev curr (fun kv hm => ?_)
  have hcur : curr.lookup kv.1 = some kv.2 := lookup_of_mem_nodup hdup hm
  have hsome : (prev.lookup kv.1).isSome = true := by
    rw [hkeys kv.1, hcur]
    rfl
  obtain ⟨e, he⟩ := Option.isSome_iff_exists.mp hsome
  have hagr := hagree kv.1 e kv.2 he hcur
  have hle : lookupEntry prev kv.1 = e := by
    rw [lookupEntry, he]
    rfl
  rw [hle]
  exact sync_key_no_change sha1 simulate ig kv.1 e kv.2 hagr.1 hagr.2

/-- C5 witness: the idempotence statement at a one-file snapshot used
for both the previous and the current state. -/
theorem sync_state_idempotent_witness :
    sync_state (fun _ => "") false [] [("/a.txt", ePrevBoth)]
      [("/a.txt", ePrevBoth)] = ([], none) :=
  sync_state_idempotent (fun _ => "") false [] _ _
    (by decide)
    (fun _ => rfl)
    (fun k e e' h h' => by
      rw [h] at h'
      cases h'
      exact ⟨rfl, rfl⟩)

end SyncDbxNxc

namespace SyncDbxNxc

/-! Under `SIMULATE`, every primitive either emits nothing or emits one
of the two read-only downloads. -/

theorem copy_to_nxc_simulate_nonmut (p : String) :
    ∀ a ∈ copy_to_nxc true p, isMutating a = false := by
  intro a ha
  by_cases h : is_folder p
  · simp [copy_to_nxc, h, create_folder_nxc] at ha
  · simp [copy_to_nxc, h, download_file_dbx, upload_file_nxc] at ha
    subst ha
    rfl

theorem copy_to_dbx_simulate_nonmut (p : String) :
    ∀ a ∈ copy_to_dbx true p, isMutating a = false := by
  intro a ha
  by_cases h : is_folder p
  · simp [copy_to_dbx, h, create_folder_dbx] at ha
  · simp [copy_to_dbx, h, download_file_nxc, upload_file_dbx] at ha
    subst ha
    rfl

theorem sync_key_simulate_nonmut (sha1 : String → String) (ig : List String)
    (k : String) (eP eC : Entry) :
    ∀ a ∈ (sync_key sha1 true ig k eP eC).1, isMutating a = false := by
  intro a ha
  simp only [sync_key] at ha
  split at ha
  · simp at ha
  split at ha
  · simp at ha
  split at ha
  · split at ha
    · exact copy_to_nxc_simulate_nonmut _ a ha
    split at ha
    · simp [delete_on_nxc] at ha
    split at ha
    · exact copy_to_nxc_simulate_nonmut _ a ha
    · simp at ha
  split at ha
  · split at ha
    · exact copy_to_dbx_simulate_nonmut _ a ha
    split at ha
    · simp [delete_on_dbx] at ha
    split at ha
    · exact copy_to_dbx_simulate_nonmut _ a ha
    · simp at ha
  split at ha
  · split at ha
    · rw [conflict_resolve_eq] at ha
      simp at ha
      simp [ha, isMutating]
    split at ha
    · exact copy_to_nxc_simulate_nonmut _ a ha
    split at ha
    · exact copy_to_dbx_simulate_nonmut _ a ha
    split at ha
    · rw [conflict_resolve_eq] at ha
      simp at ha
      simp [ha, isMutating]
    · simp at ha
  · simp at ha

theorem run_keys_simulate_nonmut (sha1 : String → String) (ig : List String)
    (prev : State) (l : List (String × Entry)) :
    ∀ a ∈ (run_keys sha1 true ig prev l).1, isMutating a = false := by
  induction l with
  | nil =>
    intro a ha
    simp [run_keys] at ha
  | cons kv rest ih =>
    intro a ha
    simp only [run_keys] at ha
    rcases hsk : sync_key sha1 true ig kv.1 (lookupEntry prev kv.1) kv.2 with ⟨acts, err⟩
    rw [hsk] at ha
    cases err with
    | some e =>
      simp at ha
      exact sync_key_simulate_nonmut sha1 ig kv.1 _ kv.2 a (by rw [hsk]; simpa using ha)
    | none =>
      rcases hrk : run_keys sha1 true ig prev rest with ⟨acts2, err2⟩
      rw [hrk] at ha
      simp at ha
      rcases ha with h1 | h2
      · exact sync_key_simulate_nonmut sha1 ig kv.1 _ kv.2 a (by rw [hsk]; simpa using h1)
      · exact ih a (by rw [hrk]; simpa using h2)

theorem apply_key_simulate_nonmut (ig : List String) (k : String) (v : Entry) :
    ∀ a ∈ apply_key true ig k v, isMutating a = false := by
  intro a ha
  simp only [apply_key] at ha
  split at ha
  · simp at ha
  split at ha
  · simp at ha
  split at ha
  · simp at ha
  split at ha
  · exact copy_to_dbx_simulate_nonmut _ a ha
  split at ha
  · exact copy_to_nxc_simulate_nonmut _ a ha
  · simp at ha

theorem apply_state_simulate_nonmut (ig : List String) (l : State) :
    ∀ a ∈ apply_state true ig l, isMutating a = false := by
  induction l with
  | nil =>
    intro a ha
    simp [apply_state] at ha
  | cons kv rest ih =>
    intro a ha
    simp only [apply_state] at ha
    rcases List.mem_append.mp ha with h | h
    · exact apply_key_simulate_nonmut ig kv.1 kv.2 a h
    · exact ih a h

/-- C7: in simulate (dry-run) mode, neither the Reconciler nor the Seed
Reconciler ever issues a mutating backend call (create folder, upload,
delete, move): every action they emit is a read-only download performed
for digest computation. -/
theorem simulate_never_mutates (sha1 : String → String) (ig : List String)
    (prev curr st : State) (a : Action)
    (h : a ∈ (sync_state sha1 true ig prev curr).1 ∨
      a ∈ apply_state true ig st) :
    isMutating a = false := by
  rcases h with h | h
  · exact run_keys_simulate_nonmut sha1 ig _ _ a h
  · exact apply_state_simulate_nonmut ig st a h

/-- C7 witness: in simulate mode a file deleted on both sides still
produces a (read-only) Dropbox download, which is indeed non-mutating. -/
theorem simulate_never_mutates_witness :
    isMutating (Action.downloadFileDbx "/A.txt") = false :=
  simulate_never_mutates (fun _ => "") [] [("/a.txt", ePrevBoth)] [] []
    (Action.downloadFileDbx "/A.txt") (Or.inl (by decide))

end SyncDbxNxc

namespace SyncDbxNxc

/-- One NextCloud listing entry leaves `name`, `path` and the `dbx`
sub-dict of every already-present key untouched: it may only rewrite the
`nxc` sub-dict (and only of its own key). -/
theorem fill_entry_nxc_preserves (unquote fmtDate : String → String)
    (rootText : String) (st : State) (e : NxcEntry) (k : String) (en : Entry)
    (h : st.lookup k = some en) :
    ∃ t, (fill_entry_nxc unquote fmtDate rootText st e).lookup k =
      some { dbx := en.dbx, nxc := t, name := en.name, path := en.path } := by
  simp only [fill_entry_nxc, dictSetNxc]
  by_cases h0 : (strLower (strDrop (unquote e.href) rootText.length) == "") = true
  · rw [if_pos h0]
    exact ⟨en.nxc, by rw [h]⟩
  · rw [if_neg h0]
    by_cases hk : strLower (strDrop (unquote e.href) rootText.length) = k
    · rw [hk]
      have hsome : (st.lookup k).isSome = true := by
        rw [h]
        rfl
      rw [if_pos hsome]
      have hle : lookupEntry st k = en := by
        rw [lookupEntry, h]
        rfl
      rw [hle]
      exact ⟨{ existent := true, time := some (fmtDate e.last_modified) },
        lookup_dictUpdate_self st k _⟩
    · have hne : k ≠ strLower (strDrop (unquote e.href) rootText.length) :=
        fun hh => hk hh.symm
      by_cases hsome :
          (st.lookup (strLower (strDrop (unquote e.href) rootText.length))).isSome = true
      · rw [if_pos hsome]
        refine ⟨en.nxc, ?_⟩
        rw [lookup_dictUpdate_ne _ _ _ _ hne, h]
      · rw [if_neg hsome]
        refine ⟨en.nxc, ?_⟩
        rw [lookup_dictUpdate_ne _ _ _ _ hne, lookup_dictUpdate_ne _ _ _ _ hne, h]

theorem fill_fold_nxc_preserves (unquote fmtDate : String → String)
    (rootText : String) (k : String) (D : BackendState) (N P : String)
    (entries : List NxcEntry) :
    ∀ (st : State),
      (∃ t, st.lookup k = some { dbx := D, nxc := t, name := N, path := P }) →
      ∃ t, (entries.foldl (fill_entry_nxc unquote fmtDate rootText) st).lookup k =
        some { dbx := D, nxc := t, name := N, path := P } := by
  induction entries with
  | nil => exact fun st h => h
  | cons e rest ih =>
    intro st h
    obtain ⟨t, ht⟩ := h
    exact ih _ (fill_entry_nxc_preserves unquote fmtDate rootText st e k _ ht)

/-- C10: for a key recorded by the Dropbox listing pass, the NextCloud
pass of `get_state` can only update the key's `nxc` existence/time
sub-dict: the entry's `name`, `path` and `dbx` fields in the final
snapshot are exactly those recorded by the Dropbox pass, so later
actions use Dropbox's display casing. -/
theorem nxc_pass_preserves_dbx_fields (root timeNow : String)
    (pages : List (List DbxEntry)) (unquote fmtDate : String → String)
    (rootText : String) (ok : Bool) (nentries : List NxcEntry)
    (k : String) (e : Entry)
    (h : (fill_state_dbx root timeNow pages []).lookup k = some e) :
    ∃ t, (get_state root timeNow pages unquote fmtDate rootText ok
        nentries).lookup k =
      some { dbx := e.dbx, nxc := t, name := e.name, path := e.path } := by
  unfold get_state fill_state_nxc
  by_cases hok : ok = true
  · rw [if_pos hok]
    exact fill_fold_nxc_preserves unquote fmtDate rootText k e.dbx e.name e.path
      nentries _ ⟨e.nxc, by rw [h]⟩
  · rw [if_neg hok]
    exact ⟨e.nxc, by rw [h]⟩

/-- C10 witness: a file recorded by the Dropbox pass under key `a.txt`
keeps Dropbox's `name`, display `path` and `dbx` sub-dict after the
NextCloud pass has listed the same object. -/
theorem nxc_pass_preserves_dbx_fields_witness :
    ∃ t, (get_state "/" "now"
        [[], [DbxEntry.file "a.txt" "/a.txt" "/A.txt" "20200101000000"]]
        (fun s => s) (fun s => s) "" true
        [{ href := "A.txt", last_modified := "x" }]).lookup "a.txt" =
      some { dbx := { existent := true, time := some "20200101000000" },
             nxc := t, name := "a.txt", path := "A.txt" } :=
  nxc_pass_preserves_dbx_fields "/" "now"
    [[], [DbxEntry.file "a.txt" "/a.txt" "/A.txt" "20200101000000"]]
    (fun s => s) (fun s => s) "" true
    [{ href := "A.txt", last_modified := "x" }] "a.txt"
    { dbx := { existent := true, time := some "20200101000000" },
      nxc := { existent := false, time := none },
      name := "a.txt", path := "A.txt" }
    (by rfl)

end SyncDbxNxc
